import Mathlib

/-!
Shallow embedding of the game core of `oak_forest_bot_improved_english.py`
(the Zagros Oak Forest Telegram bot): the time oracle (`get_game_time`),
energy regeneration (`update_energy`) and the player-state transition of the
`button` callback handler (exploration with hazards and level-up, star
collection, recovery gating).

Modelling conventions:
* timestamps are rationals, measured in seconds since the epoch
  (`datetime.utcnow()` becomes an explicit `now : ℚ` parameter);
* Python `int(x)` is truncation toward zero (`truncQ`), Python float `//`
  is `Int.floor`, Python `%` on a positive modulus is `fmod` (floats) or
  `Int.emod` (integers);
* the random number generator is an oracle: one `acornRoll : ℤ` for
  `random.randint(0, 5)`, a stream `draws : ℕ → ℚ` for the successive
  `random.random()` calls of the threat loop, and `starsAvailable : ℤ` for
  `random.randint(1, 3)`;
* the MongoDB record of a player is the structure `UserData`; the
  read-modify-write sequence of the handler becomes explicit state passing.
-/

namespace OakForest

/-- Python `int()` applied to a rational: truncation toward zero. -/
def truncQ (q : ℚ) : ℤ := if 0 ≤ q then ⌊q⌋ else ⌈q⌉

/-- Python float `%` for a positive modulus: `x - m * (x // m)`. -/
def fmod (x m : ℚ) : ℚ := x - m * ⌊x / m⌋

/-- The `squirrel_status` field: `'healthy'` or `'injured'`. -/
inductive SquirrelStatus
  | healthy
  | injured
deriving DecidableEq

/-- The per-player MongoDB record (the fields the game logic touches). -/
structure UserData where
  acorns : ℤ
  stars : ℤ
  level : ℤ
  energy : ℤ
  squirrel_status : SquirrelStatus
  squirrel_recovery_time : Option ℚ
  last_energy_update : ℚ
deriving DecidableEq

/-- `cycle_duration = 4 * 3600`: 4 hours for a full game cycle. -/
def cycle_duration : ℚ := 4 * 3600

/-- `game_day` of `get_game_time`:
`int((elapsed_seconds // (cycle_duration / 13)) % 13) + 1`. -/
def game_day (t : ℚ) : ℤ := (⌊t / (cycle_duration / 13)⌋ % 13) + 1

/-- `is_night = game_day > 6` of `get_game_time`. -/
def is_night (t : ℚ) : Bool := game_day t > 6

/-- `time_to_next = cycle_duration - (elapsed_seconds % cycle_duration)`
of `get_game_time`, in seconds. -/
def time_to_next (t : ℚ) : ℚ := cycle_duration - fmod t cycle_duration

/-- `get_game_time()`: the triple `(game_day, is_night, time_to_next)` as a
function of the current timestamp. -/
def get_game_time (t : ℚ) : ℤ × Bool × ℚ := (game_day t, is_night t, time_to_next t)

/-- `update_energy(user_data)`:
`min(user_data.get('energy', 10) + int(elapsed_hours * 2), 10)` where
`elapsed_hours = (now - last_energy_update).total_seconds() / 3600`. -/
def update_energy (u : UserData) (now : ℚ) : ℤ :=
  min (u.energy + truncQ ((now - u.last_energy_update) / 3600 * 2)) 10

/-- The threat table of the explore branch: `[("fox", 0.1), ("eagle", 0.05),
("storm", 0.05)]`. -/
def threats : List (String × ℚ) := [("fox", 1/10), ("eagle", 1/20), ("storm", 1/20)]

/-- The threat loop: walk the threat table in order, drawing one uniform
sample per tested threat (`draws i` is the i-th `random.random()` call), and
return the first threat whose draw succeeds (`break` on first match). -/
def pick_threat (draws : ℕ → ℚ) : List (String × ℚ) → ℕ → Option String
  | [], _ => none
  | (name, prob) :: rest, i =>
      if draws i < prob then some name else pick_threat draws rest (i + 1)

/-- The callback data of the `button` handler, one constructor per branch. -/
inductive ActionData
  | explore
  | explore_loc (loc : String)
  | collect_star
  | star_pick (n : ℤ)
  | show_status
  | help_info
deriving DecidableEq

/-- The user-visible outcome of one `button` invocation. -/
inductive ButtonResult
  | injured_wait (minutes : ℤ)
  | tired
  | explore_menu (energy : ℤ)
  | injured_by (threat : String)
  | found (loc : String) (acorns_found : ℤ) (leveled_up_to : Option ℤ)
  | day_wait (hours : ℤ)
  | star_offer (count : ℤ)
  | star_caught
  | status_report
  | help_text
deriving DecidableEq

/-- The random draws one `button` invocation may consume. -/
structure Rand where
  acornRoll : ℤ
  draws : ℕ → ℚ
  starsAvailable : ℤ

/-- The energy-regeneration commit at the top of `button`:
`$set {energy: new_energy, last_energy_update: utcnow()}`. -/
def regen (u : UserData) (now : ℚ) : UserData :=
  { u with energy := update_energy u now, last_energy_update := now }

/-- The recovery commit: `$set {squirrel_status: 'healthy',
squirrel_recovery_time: None}`. -/
def heal (u : UserData) : UserData :=
  { u with squirrel_status := SquirrelStatus.healthy, squirrel_recovery_time := none }

/-- The `explore_<loc>` branch of `button` (after the injury gate): energy
check, energy deduction, acorn roll with star bonus, threat loop, and either
the injury commit or the acorn commit followed by the single-step level-up
check. -/
def explore_go (u : UserData) (now : ℚ) (loc : String) (r : Rand) :
    UserData × ButtonResult :=
  if u.energy < 1 then (u, ButtonResult.tired)
  else
    let star_bonus : ℤ := if u.stars > 0 then 2 else 1
    let acorns_found : ℤ := r.acornRoll * star_bonus
    match pick_threat r.draws threats 0 with
    | some t =>
        ({ u with
            energy := u.energy - 1,
            squirrel_status := SquirrelStatus.injured,
            squirrel_recovery_time := some (now + 2 * 3600) },
         ButtonResult.injured_by t)
    | none =>
        let u2 : UserData := { u with energy := u.energy - 1, acorns := u.acorns + acorns_found }
        if u2.acorns ≥ u2.level * 50 then
          ({ u2 with
              level := u2.level + 1,
              stars := u2.stars + 1,
              energy := u2.energy + 5 },
           ButtonResult.found loc acorns_found (some (u2.level + 1)))
        else
          (u2, ButtonResult.found loc acorns_found none)

/-- The dispatch on `query.data` in `button`, reached after the energy
regeneration and the injury gate. -/
def dispatch_action (u : UserData) (now : ℚ) (act : ActionData) (r : Rand) :
    UserData × ButtonResult :=
  match act with
  | ActionData.explore =>
      if u.energy < 1 then (u, ButtonResult.tired)
      else (u, ButtonResult.explore_menu u.energy)
  | ActionData.explore_loc loc => explore_go u now loc r
  | ActionData.collect_star =>
      if ¬ is_night now then
        (u, ButtonResult.day_wait (truncQ (time_to_next now / 3600)))
      else (u, ButtonResult.star_offer r.starsAvailable)
  | ActionData.star_pick _ =>
      ({ u with stars := u.stars + 1 }, ButtonResult.star_caught)
  | ActionData.show_status => (u, ButtonResult.status_report)
  | ActionData.help_info => (u, ButtonResult.help_text)

/-- One full `button` invocation on an existing record: commit the energy
regeneration, run the injury gate (`if squirrel_status == 'injured'`:
reject with the remaining minutes while `recovery_time and now <
recovery_time`, otherwise heal and fall through), then dispatch the
requested action. -/
def button_step (u : UserData) (now : ℚ) (act : ActionData) (r : Rand) :
    UserData × ButtonResult :=
  if (regen u now).squirrel_status = SquirrelStatus.injured then
    match (regen u now).squirrel_recovery_time with
    | some rt =>
        if now < rt then
          (regen u now, ButtonResult.injured_wait (truncQ ((rt - now) / 60)))
        else dispatch_action (heal (regen u now)) now act r
    | none => dispatch_action (heal (regen u now)) now act r
  else dispatch_action (regen u now) now act r

/-! ### Helper lemmas -/

lemma truncQ_of_nonneg {q : ℚ} (h : 0 ≤ q) : truncQ q = ⌊q⌋ := if_pos h

lemma update_energy_le_ten (u : UserData) (now : ℚ) : update_energy u now ≤ 10 :=
  min_le_right _ _

lemma update_energy_nonneg (u : UserData) (now : ℚ) (h0 : 0 ≤ u.energy)
    (hle : u.last_energy_update ≤ now) : 0 ≤ update_energy u now := by
  have harg : (0 : ℚ) ≤ (now - u.last_energy_update) / 3600 * 2 := by
    have : (0 : ℚ) ≤ now - u.last_energy_update := sub_nonneg.mpr hle
    positivity
  have hfl : (0 : ℤ) ≤ truncQ ((now - u.last_energy_update) / 3600 * 2) := by
    rw [truncQ_of_nonneg harg]
    exact Int.le_floor.mpr (by exact_mod_cast harg)
  exact le_min (by linarith) (by norm_num)

lemma regen_fields (u : UserData) (now : ℚ) :
    (regen u now).acorns = u.acorns ∧ (regen u now).stars = u.stars ∧
    (regen u now).level = u.level ∧ (regen u now).energy = update_energy u now ∧
    (regen u now).squirrel_status = u.squirrel_status ∧
    (regen u now).squirrel_recovery_time = u.squirrel_recovery_time := by
  simp [regen]

lemma button_step_healthy (u : UserData) (now : ℚ) (act : ActionData) (r : Rand)
    (hh : u.squirrel_status = SquirrelStatus.healthy) :
    button_step u now act r = dispatch_action (regen u now) now act r := by
  unfold button_step
  simp [regen, hh]

lemma cycle_duration_pos : (0 : ℚ) < cycle_duration := by norm_num [cycle_duration]

lemma fmod_nonneg_cycle (t : ℚ) : 0 ≤ fmod t cycle_duration := by
  unfold fmod
  have h1 : (⌊t / cycle_duration⌋ : ℚ) ≤ t / cycle_duration := Int.floor_le _
  have h2 : cycle_duration * (⌊t / cycle_duration⌋ : ℚ) ≤ t := by
    rw [mul_comm]
    exact (le_div_iff₀ cycle_duration_pos).mp h1
  linarith

lemma fmod_lt_cycle (t : ℚ) : fmod t cycle_duration < cycle_duration := by
  unfold fmod
  have h1 : t / cycle_duration < (⌊t / cycle_duration⌋ : ℚ) + 1 := Int.lt_floor_add_one _
  have h2 : t < cycle_duration * ((⌊t / cycle_duration⌋ : ℚ) + 1) := by
    rw [mul_comm]
    exact (div_lt_iff₀ cycle_duration_pos).mp h1
  linarith

lemma floor13_le (x : ℚ) : 13 * ⌊x⌋ ≤ ⌊x * 13⌋ := by
  refine Int.le_floor.mpr ?_
  push_cast
  have := Int.floor_le x
  linarith

lemma floor13_lt (x : ℚ) : ⌊x * 13⌋ < 13 * ⌊x⌋ + 13 := by
  refine Int.floor_lt.mpr ?_
  push_cast
  have := Int.lt_floor_add_one x
  linarith

lemma floor13_emod (x : ℚ) : ⌊x * 13⌋ % 13 = ⌊x * 13⌋ - 13 * ⌊x⌋ := by
  have h1 := floor13_le x
  have h2 := floor13_lt x
  omega

/-! ### Claim theorems -/

/-- C2 (amended): for `lastEnergyUpdate ≤ now` (elapsed hours `h ≥ 0`) the
regeneration returns `min(10, energy + ⌊2h⌋)`, and regenerating from full
energy returns 10. (The unrestricted form over all `h` is refuted by
`C2_counterexample`.) -/
theorem C2_regen_formula (u : UserData) (now : ℚ)
    (hle : u.last_energy_update ≤ now) :
    update_energy u now
        = min 10 (u.energy + ⌊2 * ((now - u.last_energy_update) / 3600)⌋) ∧
    (u.energy = 10 → update_energy u now = 10) := by
  have harg : (0 : ℚ) ≤ (now - u.last_energy_update) / 3600 * 2 := by
    have : (0 : ℚ) ≤ now - u.last_energy_update := sub_nonneg.mpr hle
    positivity
  have hform : update_energy u now
      = min 10 (u.energy + ⌊2 * ((now - u.last_energy_update) / 3600)⌋) := by
    unfold update_energy
    rw [truncQ_of_nonneg harg, min_comm, mul_comm]
  refine ⟨hform, fun hfull => ?_⟩
  have hfl : (0 : ℤ) ≤ ⌊2 * ((now - u.last_energy_update) / 3600)⌋ := by
    rw [mul_comm]
    exact Int.le_floor.mpr (by exact_mod_cast harg)
  rw [hform, hfull]
  omega

/-- C2 witness: with full energy and one hour elapsed, the regeneration
formula instantiates to `min 10 (10 + 2)` and full energy stays at 10. -/
theorem C2_regen_formula_witness :
    update_energy ⟨0, 0, 1, 10, SquirrelStatus.healthy, none, 0⟩ 3600
        = min 10 (10 + ⌊2 * (((3600 : ℚ) - 0) / 3600)⌋) ∧
    ((10 : ℤ) = 10 →
      update_energy ⟨0, 0, 1, 10, SquirrelStatus.healthy, none, 0⟩ 3600 = 10) :=
  C2_regen_formula ⟨0, 0, 1, 10, SquirrelStatus.healthy, none, 0⟩ 3600 (by norm_num)

/-- C2 counterexample: with `lastEnergyUpdate` one hour in the future
(elapsed hours `h = -1`), regenerating from full energy returns 8, not 10,
refuting `regen(10,h) = 10` for all `h`. -/
theorem C2_counterexample :
    update_energy ⟨0, 0, 1, 10, SquirrelStatus.healthy, none, 3600⟩ 0 = 8 ∧
    update_energy ⟨0, 0, 1, 10, SquirrelStatus.healthy, none, 3600⟩ 0 ≠ 10 := by
  have hval : update_energy ⟨0, 0, 1, 10, SquirrelStatus.healthy, none, 3600⟩ 0 = 8 := by
    show min ((10 : ℤ) + truncQ (((0 : ℚ) - 3600) / 3600 * 2)) 10 = 8
    have harg : ((0 : ℚ) - 3600) / 3600 * 2 = ((-2 : ℤ) : ℚ) := by norm_num
    rw [truncQ, harg, if_neg (by norm_num), Int.ceil_intCast]
    decide
  exact ⟨hval, by rw [hval]; decide⟩

/-- C4: the time oracle's day index equals
`⌊(t mod cycleDuration) / (cycleDuration/13)⌋ + 1`, is always in `[1,13]`,
`isNight` holds exactly when the day index exceeds 6, and all oracle outputs
are periodic with period `cycleDuration` (4 hours of wall-clock time). -/
theorem C4_time_oracle (t : ℚ) :
    game_day t = ⌊fmod t cycle_duration / (cycle_duration / 13)⌋ + 1 ∧
    1 ≤ game_day t ∧ game_day t ≤ 13 ∧
    (is_night t = true ↔ 6 < game_day t) ∧
    get_game_time (t + cycle_duration) = get_game_time t := by
  have hC : (cycle_duration : ℚ) ≠ 0 := ne_of_gt cycle_duration_pos
  have hstep : t / (cycle_duration / 13) = t / cycle_duration * 13 := by
    rw [div_div_eq_mul_div]
    ring
  have hfmod : fmod t cycle_duration / (cycle_duration / 13)
      = t / cycle_duration * 13 - ((13 * ⌊t / cycle_duration⌋ : ℤ) : ℚ) := by
    unfold fmod
    push_cast
    field_simp
    ring
  have hfloor : ⌊fmod t cycle_duration / (cycle_duration / 13)⌋
      = ⌊t / cycle_duration * 13⌋ - 13 * ⌊t / cycle_duration⌋ := by
    rw [hfmod, Int.floor_sub_int]
  have hemod := floor13_emod (t / cycle_duration)
  have hday : game_day t = (⌊t / cycle_duration * 13⌋ % 13) + 1 := by
    unfold game_day
    rw [hstep]
  have h1 : game_day t = ⌊fmod t cycle_duration / (cycle_duration / 13)⌋ + 1 := by
    rw [hday, hfloor, hemod]
  have hlo : 0 ≤ ⌊t / cycle_duration * 13⌋ % 13 :=
    Int.emod_nonneg _ (by norm_num)
  have hhi : ⌊t / cycle_duration * 13⌋ % 13 < 13 :=
    Int.emod_lt_of_pos _ (by norm_num)
  have hdayper : game_day (t + cycle_duration) = game_day t := by
    unfold game_day
    have hadd : (t + cycle_duration) / (cycle_duration / 13)
        = t / (cycle_duration / 13) + ((13 : ℤ) : ℚ) := by
      rw [add_div]
      have h13 : cycle_duration / (cycle_duration / 13) = ((13 : ℤ) : ℚ) := by
        norm_num [cycle_duration]
      rw [h13]
    rw [hadd, Int.floor_add_int]
    omega
  have hfmodper : fmod (t + cycle_duration) cycle_duration = fmod t cycle_duration := by
    unfold fmod
    have hadd : (t + cycle_duration) / cycle_duration
        = t / cycle_duration + ((1 : ℤ) : ℚ) := by
      rw [add_div, div_self hC]
      norm_num
    rw [hadd, Int.floor_add_int]
    push_cast
    ring
  refine ⟨h1, by omega, by omega, by simp [is_night], ?_⟩
  unfold get_game_time is_night time_to_next
  rw [hdayper, hfmodper]

lemma explore_go_threat (v : UserData) (now : ℚ) (loc : String) (r : Rand)
    (hv : ¬ v.energy < 1) (th : String)
    (hpick : pick_threat r.draws threats 0 = some th) :
    explore_go v now loc r =
      ({ v with
          energy := v.energy - 1,
          squirrel_status := SquirrelStatus.injured,
          squirrel_recovery_time := some (now + 2 * 3600) },
       ButtonResult.injured_by th) := by
  unfold explore_go
  rw [if_neg hv, hpick]

lemma explore_go_no_threat (v : UserData) (now : ℚ) (loc : String) (r : Rand)
    (hv : ¬ v.energy < 1)
    (hpick : pick_threat r.draws threats 0 = none) :
    explore_go v now loc r =
      (if v.acorns + r.acornRoll * (if v.stars > 0 then 2 else 1) ≥ v.level * 50 then
        ({ v with
            acorns := v.acorns + r.acornRoll * (if v.stars > 0 then 2 else 1),
            level := v.level + 1,
            stars := v.stars + 1,
            energy := v.energy - 1 + 5 },
         ButtonResult.found loc (r.acornRoll * (if v.stars > 0 then 2 else 1))
           (some (v.level + 1)))
      else
        ({ v with
            acorns := v.acorns + r.acornRoll * (if v.stars > 0 then 2 else 1),
            energy := v.energy - 1 },
         ButtonResult.found loc (r.acornRoll * (if v.stars > 0 then 2 else 1))
           none)) := by
  unfold explore_go
  rw [if_neg hv, hpick]

/-- C5: the threat loop tests fox (probability 1/10), eagle (1/20), storm
(1/20) in this order with successive independent draws and applies the first
success: if the fox draw succeeds the outcome is a fox injury no matter what
the later draws hold, and if no draw succeeds the exploration yields acorns. -/
theorem C5_hazard_priority (u : UserData) (now : ℚ) (loc : String) (r : Rand)
    (hh : u.squirrel_status = SquirrelStatus.healthy)
    (he : 1 ≤ update_energy u now) :
    (pick_threat r.draws threats 0 =
      if r.draws 0 < 1/10 then some "fox"
      else if r.draws 1 < 1/20 then some "eagle"
      else if r.draws 2 < 1/20 then some "storm"
      else none) ∧
    (r.draws 0 < 1/10 →
      (button_step u now (ActionData.explore_loc loc) r).2
        = ButtonResult.injured_by "fox") ∧
    (pick_threat r.draws threats 0 = none →
      ∃ n lv, (button_step u now (ActionData.explore_loc loc) r).2
        = ButtonResult.found loc n lv) := by
  have hv : ¬ (regen u now).energy < 1 := not_lt.mpr he
  have hshape : pick_threat r.draws threats 0 =
      if r.draws 0 < 1/10 then some "fox"
      else if r.draws 1 < 1/20 then some "eagle"
      else if r.draws 2 < 1/20 then some "storm"
      else none := by
    simp only [pick_threat, threats]
  refine ⟨hshape, fun hfox => ?_, fun hnone => ?_⟩
  · have hpick : pick_threat r.draws threats 0 = some "fox" := by
      rw [hshape, if_pos hfox]
    rw [button_step_healthy u now _ r hh]
    show (explore_go (regen u now) now loc r).2 = ButtonResult.injured_by "fox"
    rw [explore_go_threat _ _ _ _ hv _ hpick]
  · rw [button_step_healthy u now _ r hh]
    show ∃ n lv, (explore_go (regen u now) now loc r).2 = ButtonResult.found loc n lv
    rw [explore_go_no_threat _ _ _ _ hv hnone]
    split_ifs <;> exact ⟨_, _, rfl⟩

/-- C3: a hazard-free accepted exploration whose committed acorns reach
`level * 50` increments the level by exactly one, adds one star and five
energy in the same transition, even when the accumulated acorns would
justify several levels. -/
theorem C3_single_level_up (u : UserData) (now : ℚ) (loc : String) (r : Rand)
    (hh : u.squirrel_status = SquirrelStatus.healthy)
    (he : 1 ≤ update_energy u now)
    (hpick : pick_threat r.draws threats 0 = none)
    (hlv : u.acorns + r.acornRoll * (if u.stars > 0 then 2 else 1)
        ≥ u.level * 50) :
    (button_step u now (ActionData.explore_loc loc) r).1.level = u.level + 1 ∧
    (button_step u now (ActionData.explore_loc loc) r).1.stars = u.stars + 1 ∧
    (button_step u now (ActionData.explore_loc loc) r).1.energy
        = update_energy u now - 1 + 5 ∧
    (button_step u now (ActionData.explore_loc loc) r).1.acorns
        = u.acorns + r.acornRoll * (if u.stars > 0 then 2 else 1) ∧
    (button_step u now (ActionData.explore_loc loc) r).2
        = ButtonResult.found loc (r.acornRoll * (if u.stars > 0 then 2 else 1))
            (some (u.level + 1)) := by
  have hv : ¬ (regen u now).energy < 1 := not_lt.mpr he
  rw [button_step_healthy u now _ r hh]
  show (explore_go (regen u now) now loc r).1.level = u.level + 1 ∧
    (explore_go (regen u now) now loc r).1.stars = u.stars + 1 ∧
    (explore_go (regen u now) now loc r).1.energy = update_energy u now - 1 + 5 ∧
    (explore_go (regen u now) now loc r).1.acorns
        = u.acorns + r.acornRoll * (if u.stars > 0 then 2 else 1) ∧
    (explore_go (regen u now) now loc r).2
        = ButtonResult.found loc (r.acornRoll * (if u.stars > 0 then 2 else 1))
            (some (u.level + 1))
  rw [explore_go_no_threat _ _ _ _ hv hpick]
  simp only [regen]
  rw [if_pos hlv]
  exact ⟨rfl, rfl, rfl, rfl, rfl⟩

/-- C7: a hazard-free accepted exploration adds exactly
`acornRoll * starBonus` acorns, where the star bonus is 2 when the player's
prior star count is positive and 1 otherwise. -/
theorem C7_acorn_yield (u : UserData) (now : ℚ) (loc : String) (r : Rand)
    (hh : u.squirrel_status = SquirrelStatus.healthy)
    (he : 1 ≤ update_energy u now)
    (hpick : pick_threat r.draws threats 0 = none) :
    (button_step u now (ActionData.explore_loc loc) r).1.acorns
        = u.acorns + r.acornRoll * (if u.stars > 0 then 2 else 1) := by
  have hv : ¬ (regen u now).energy < 1 := not_lt.mpr he
  rw [button_step_healthy u now _ r hh]
  show (explore_go (regen u now) now loc r).1.acorns
      = u.acorns + r.acornRoll * (if u.stars > 0 then 2 else 1)
  rw [explore_go_no_threat _ _ _ _ hv hpick]
  simp only [regen]
  split_ifs <;> rfl

/-- C6: an accepted exploration whose hazard roll succeeds leaves the
squirrel injured with recovery at `now + 2` hours, the acorns unchanged and
the energy decremented by exactly one from the post-regeneration value. -/
theorem C6_hazard_outcome (u : UserData) (now : ℚ) (loc : String) (r : Rand)
    (th : String)
    (hh : u.squirrel_status = SquirrelStatus.healthy)
    (he : 1 ≤ update_energy u now)
    (hpick : pick_threat r.draws threats 0 = some th) :
    (button_step u now (ActionData.explore_loc loc) r).1.squirrel_status
        = SquirrelStatus.injured ∧
    (button_step u now (ActionData.explore_loc loc) r).1.squirrel_recovery_time
        = some (now + 2 * 3600) ∧
    (button_step u now (ActionData.explore_loc loc) r).1.acorns = u.acorns ∧
    (button_step u now (ActionData.explore_loc loc) r).1.energy
        = update_energy u now - 1 ∧
    (button_step u now (ActionData.explore_loc loc) r).2
        = ButtonResult.injured_by th := by
  have hv : ¬ (regen u now).energy < 1 := not_lt.mpr he
  rw [button_step_healthy u now _ r hh]
  show (explore_go (regen u now) now loc r).1.squirrel_status
        = SquirrelStatus.injured ∧
    (explore_go (regen u now) now loc r).1.squirrel_recovery_time
        = some (now + 2 * 3600) ∧
    (explore_go (regen u now) now loc r).1.acorns = u.acorns ∧
    (explore_go (regen u now) now loc r).1.energy = update_energy u now - 1 ∧
    (explore_go (regen u now) now loc r).2 = ButtonResult.injured_by th
  rw [explore_go_threat _ _ _ _ hv _ hpick]
  exact ⟨rfl, rfl, rfl, rfl, rfl⟩

lemma button_step_injured_wait (u : UserData) (now : ℚ) (act : ActionData)
    (r : Rand) (rt : ℚ) (hinj : u.squirrel_status = SquirrelStatus.injured)
    (hrt : u.squirrel_recovery_time = some rt) (hlt : now < rt) :
    button_step u now act r
      = (regen u now, ButtonResult.injured_wait (truncQ ((rt - now) / 60))) := by
  simp [button_step, regen, hinj, hrt, hlt]

lemma button_step_recovered (u : UserData) (now : ℚ) (act : ActionData)
    (r : Rand) (rt : ℚ) (hinj : u.squirrel_status = SquirrelStatus.injured)
    (hrt : u.squirrel_recovery_time = some rt) (hge : ¬ now < rt) :
    button_step u now act r = dispatch_action (heal (regen u now)) now act r := by
  simp [button_step, regen, heal, hinj, hrt, hge]

/-- C8 (amended): for any action on an injured player, if `now` is before
the recovery time the action is rejected with the truncated remaining
minutes and the record is left as the energy-regeneration commit alone
produced it (all other fields unchanged); if `now` has reached the recovery
time, the squirrel is healed, the recovery time cleared, and the requested
action dispatched in the same operation. (The claim's stronger promise that
no state at all is mutated on rejection is refuted by
`C8_counterexample`.) -/
theorem C8_recovery_gate (u : UserData) (now : ℚ) (act : ActionData) (r : Rand)
    (rt : ℚ) (hinj : u.squirrel_status = SquirrelStatus.injured)
    (hrt : u.squirrel_recovery_time = some rt) :
    (now < rt →
      button_step u now act r
        = (regen u now, ButtonResult.injured_wait (truncQ ((rt - now) / 60))) ∧
      truncQ ((rt - now) / 60) = ⌊(rt - now) / 60⌋ ∧
      (regen u now).acorns = u.acorns ∧ (regen u now).stars = u.stars ∧
      (regen u now).level = u.level ∧
      (regen u now).squirrel_status = u.squirrel_status ∧
      (regen u now).squirrel_recovery_time = u.squirrel_recovery_time) ∧
    (rt ≤ now →
      button_step u now act r = dispatch_action (heal (regen u now)) now act r ∧
      (heal (regen u now)).squirrel_status = SquirrelStatus.healthy ∧
      (heal (regen u now)).squirrel_recovery_time = none) := by
  constructor
  · intro hlt
    have hmin : truncQ ((rt - now) / 60) = ⌊(rt - now) / 60⌋ :=
      truncQ_of_nonneg (div_nonneg (sub_nonneg.mpr hlt.le) (by norm_num))
    exact ⟨button_step_injured_wait u now act r rt hinj hrt hlt, hmin,
      (regen_fields u now).1, (regen_fields u now).2.1,
      (regen_fields u now).2.2.1, (regen_fields u now).2.2.2.2.1,
      (regen_fields u now).2.2.2.2.2⟩
  · intro hge
    exact ⟨button_step_recovered u now act r rt hinj hrt (not_lt.mpr hge),
      rfl, rfl⟩

/-- C8 counterexample: an injured player whose recovery lies two hours ahead
and whose energy regeneration is due gets the rejection message, yet the
stored record is mutated by the regeneration commit (energy 5 becomes 7),
refuting that a rejected action mutates no state. -/
theorem C8_counterexample :
    (button_step ⟨0, 0, 1, 5, SquirrelStatus.injured, some 7200, -3600⟩ 0
        ActionData.collect_star ⟨0, fun _ => 1, 1⟩).2
      = ButtonResult.injured_wait 120 ∧
    (button_step ⟨0, 0, 1, 5, SquirrelStatus.injured, some 7200, -3600⟩ 0
        ActionData.collect_star ⟨0, fun _ => 1, 1⟩).1
      ≠ ⟨0, 0, 1, 5, SquirrelStatus.injured, some 7200, -3600⟩ := by
  have hstep := button_step_injured_wait
    ⟨0, 0, 1, 5, SquirrelStatus.injured, some 7200, -3600⟩ 0
    ActionData.collect_star ⟨0, fun _ => 1, 1⟩ 7200 rfl rfl (by norm_num)
  have he : (regen ⟨0, 0, 1, 5, SquirrelStatus.injured, some 7200, -3600⟩ 0).energy
      = 7 := by
    show min ((5 : ℤ) + truncQ (((0 : ℚ) - -3600) / 3600 * 2)) 10 = 7
    norm_num [truncQ, min_def]
  constructor
  · rw [hstep]
    show ButtonResult.injured_wait (truncQ (((7200 : ℚ) - 0) / 60))
        = ButtonResult.injured_wait 120
    norm_num [truncQ]
  · rw [hstep]
    intro hcontra
    have hproj := congrArg UserData.energy hcontra
    rw [he] at hproj
    exact absurd hproj (by decide)

/-- C9: a collect-star action by a healthy player during the day is
rejected, leaves the stars counter unchanged, and reports the truncated
number of hours remaining until the cycle restart. -/
theorem C9_day_star_rejection (u : UserData) (now : ℚ) (r : Rand)
    (hh : u.squirrel_status = SquirrelStatus.healthy)
    (hday : is_night now = false) :
    button_step u now ActionData.collect_star r
      = (regen u now, ButtonResult.day_wait (truncQ (time_to_next now / 3600))) ∧
    (button_step u now ActionData.collect_star r).1.stars = u.stars ∧
    truncQ (time_to_next now / 3600) = ⌊time_to_next now / 3600⌋ := by
  have hrej : button_step u now ActionData.collect_star r
      = (regen u now, ButtonResult.day_wait (truncQ (time_to_next now / 3600))) := by
    rw [button_step_healthy u now _ r hh]
    simp [dispatch_action, hday]
  have htt : (0 : ℚ) ≤ time_to_next now / 3600 := by
    have := fmod_lt_cycle now
    unfold time_to_next
    have hsub : (0 : ℚ) ≤ cycle_duration - fmod now cycle_duration := by linarith
    exact div_nonneg hsub (by norm_num)
  exact ⟨hrej, by rw [hrej]; rfl, truncQ_of_nonneg htt⟩

/-- C10: a star-selection callback by a healthy player increments the stars
counter by exactly one, with no night check and no check that a star offer
is outstanding: it succeeds for every timestamp, in particular during the
day. -/
theorem C10_star_pick_unconditional (u : UserData) (now : ℚ) (r : Rand) (n : ℤ)
    (hh : u.squirrel_status = SquirrelStatus.healthy) :
    (button_step u now (ActionData.star_pick n) r).1.stars = u.stars + 1 ∧
    (button_step u now (ActionData.star_pick n) r).2 = ButtonResult.star_caught ∧
    (button_step u now (ActionData.star_pick n) r).1.acorns = u.acorns ∧
    (button_step u now (ActionData.star_pick n) r).1.level = u.level := by
  rw [button_step_healthy u now _ r hh]
  exact ⟨rfl, rfl, rfl, rfl⟩

lemma dispatch_energy_bounds (v : UserData) (now : ℚ) (act : ActionData)
    (r : Rand) (h0 : 0 ≤ v.energy) (h1 : v.energy ≤ 10) :
    0 ≤ (dispatch_action v now act r).1.energy ∧
    ((dispatch_action v now act r).1.energy ≤ 10 ∨
      ((dispatch_action v now act r).1.energy ≤ 14 ∧
        ∃ l n k, (dispatch_action v now act r).2 = ButtonResult.found l n (some k))) := by
  cases act with
  | explore =>
      unfold dispatch_action
      split_ifs <;> exact ⟨h0, Or.inl h1⟩
  | explore_loc loc =>
      have hd : dispatch_action v now (ActionData.explore_loc loc) r
          = explore_go v now loc r := rfl
      rw [hd]
      by_cases hv : v.energy < 1
      · unfold explore_go
        rw [if_pos hv]
        exact ⟨h0, Or.inl h1⟩
      · have hv1 : 1 ≤ v.energy := not_lt.mp hv
        cases hpick : pick_threat r.draws threats 0 with
        | some th =>
            rw [explore_go_threat v now loc r hv th hpick]
            exact ⟨by show 0 ≤ v.energy - 1; omega,
              Or.inl (by show v.energy - 1 ≤ 10; omega)⟩
        | none =>
            rw [explore_go_no_threat v now loc r hv hpick]
            split_ifs <;>
              first
                | exact ⟨by show 0 ≤ v.energy - 1 + 5; omega,
                    Or.inr ⟨by show v.energy - 1 + 5 ≤ 14; omega, _, _, _, rfl⟩⟩
                | exact ⟨by show 0 ≤ v.energy - 1; omega,
                    Or.inl (by show v.energy - 1 ≤ 10; omega)⟩
  | collect_star =>
      unfold dispatch_action
      split_ifs <;> exact ⟨h0, Or.inl h1⟩
  | star_pick n => exact ⟨h0, Or.inl h1⟩
  | show_status => exact ⟨h0, Or.inl h1⟩
  | help_info => exact ⟨h0, Or.inl h1⟩

/-- C1 (amended): starting from energy in `[0,10]` with the last update not
in the future, every `button` operation leaves the energy nonnegative and at
most 10 — except that an exploration which levels up applies the `+5` reward
uncapped and can leave energy anywhere up to 14. (The claim's uniform
`[0,10]` bound across the level-up reward is refuted by
`C1_counterexample`.) -/
theorem C1_energy_bounds (u : UserData) (now : ℚ) (act : ActionData) (r : Rand)
    (h0 : 0 ≤ u.energy) (h1 : u.energy ≤ 10)
    (hle : u.last_energy_update ≤ now) :
    0 ≤ (button_step u now act r).1.energy ∧
    ((button_step u now act r).1.energy ≤ 10 ∨
      ((button_step u now act r).1.energy ≤ 14 ∧
        ∃ l n k, (button_step u now act r).2 = ButtonResult.found l n (some k))) := by
  have hre0 : 0 ≤ (regen u now).energy := update_energy_nonneg u now h0 hle
  have hre1 : (regen u now).energy ≤ 10 := update_energy_le_ten u now
  unfold button_step
  split_ifs with hinj
  · cases hrec : (regen u now).squirrel_recovery_time with
    | some rt =>
        dsimp only
        split_ifs with hlt
        · exact ⟨hre0, Or.inl hre1⟩
        · exact dispatch_energy_bounds (heal (regen u now)) now act r hre0 hre1
    | none => exact dispatch_energy_bounds (heal (regen u now)) now act r hre0 hre1
  · exact dispatch_energy_bounds (regen u now) now act r hre0 hre1

/-- C1 witness: the bounds hold at a concrete player checking the status
with full energy and no elapsed time. -/
theorem C1_energy_bounds_witness :
    0 ≤ (button_step ⟨0, 0, 1, 10, SquirrelStatus.healthy, none, 0⟩ 0
        ActionData.show_status ⟨0, fun _ => 1, 1⟩).1.energy ∧
    ((button_step ⟨0, 0, 1, 10, SquirrelStatus.healthy, none, 0⟩ 0
        ActionData.show_status ⟨0, fun _ => 1, 1⟩).1.energy ≤ 10 ∨
      ((button_step ⟨0, 0, 1, 10, SquirrelStatus.healthy, none, 0⟩ 0
        ActionData.show_status ⟨0, fun _ => 1, 1⟩).1.energy ≤ 14 ∧
        ∃ l n k, (button_step ⟨0, 0, 1, 10, SquirrelStatus.healthy, none, 0⟩ 0
          ActionData.show_status ⟨0, fun _ => 1, 1⟩).2
            = ButtonResult.found l n (some k))) :=
  C1_energy_bounds ⟨0, 0, 1, 10, SquirrelStatus.healthy, none, 0⟩ 0
    ActionData.show_status ⟨0, fun _ => 1, 1⟩ (by norm_num) (by norm_num) (by norm_num)

/-- C1 counterexample: a healthy player with full energy and 49 acorns who
explores hazard-free, finds one acorn and levels up ends with energy
`10 - 1 + 5 = 14`, refuting that the energy always stays in `[0,10]`. -/
theorem C1_counterexample :
    (button_step ⟨49, 0, 1, 10, SquirrelStatus.healthy, none, 0⟩ 0
        (ActionData.explore_loc "north") ⟨1, fun _ => 1, 1⟩).1.energy = 14 ∧
    ¬ (button_step ⟨49, 0, 1, 10, SquirrelStatus.healthy, none, 0⟩ 0
        (ActionData.explore_loc "north") ⟨1, fun _ => 1, 1⟩).1.energy ≤ 10 := by
  have hen : update_energy ⟨49, 0, 1, 10, SquirrelStatus.healthy, none, 0⟩ 0 = 10 := by
    show min ((10 : ℤ) + truncQ (((0 : ℚ) - 0) / 3600 * 2)) 10 = 10
    norm_num [truncQ, min_def]
  have hv : ¬ (regen ⟨49, 0, 1, 10, SquirrelStatus.healthy, none, 0⟩ 0).energy < 1 := by
    show ¬ update_energy ⟨49, 0, 1, 10, SquirrelStatus.healthy, none, 0⟩ 0 < 1
    rw [hen]
    norm_num
  have hpick : pick_threat (⟨1, fun _ => (1 : ℚ), 1⟩ : Rand).draws threats 0 = none := by
    show pick_threat (fun _ => (1 : ℚ)) threats 0 = none
    norm_num [pick_threat, threats]
  rw [button_step_healthy ⟨49, 0, 1, 10, SquirrelStatus.healthy, none, 0⟩ 0
    (ActionData.explore_loc "north") ⟨1, fun _ => 1, 1⟩ rfl]
  have hd : dispatch_action (regen ⟨49, 0, 1, 10, SquirrelStatus.healthy, none, 0⟩ 0) 0
      (ActionData.explore_loc "north") ⟨1, fun _ => 1, 1⟩
      = explore_go (regen ⟨49, 0, 1, 10, SquirrelStatus.healthy, none, 0⟩ 0) 0
          "north" ⟨1, fun _ => 1, 1⟩ := rfl
  rw [hd, explore_go_no_threat _ _ _ _ hv hpick]
  simp only [regen]
  rw [if_pos (by norm_num)]
  constructor
  · show update_energy ⟨49, 0, 1, 10, SquirrelStatus.healthy, none, 0⟩ 0 - 1 + 5 = 14
    rw [hen]
    norm_num
  · show ¬ update_energy ⟨49, 0, 1, 10, SquirrelStatus.healthy, none, 0⟩ 0 - 1 + 5 ≤ 10
    rw [hen]
    norm_num

/-- C3 witness: from 49 acorns at level 1, a hazard-free exploration finding
one acorn reaches 50 and yields level 2, one star and five energy. -/
theorem C3_single_level_up_witness :
    (button_step ⟨49, 0, 1, 10, SquirrelStatus.healthy, none, 0⟩ 0
        (ActionData.explore_loc "north") ⟨1, fun _ => 1, 1⟩).1.level = 1 + 1 ∧
    (button_step ⟨49, 0, 1, 10, SquirrelStatus.healthy, none, 0⟩ 0
        (ActionData.explore_loc "north") ⟨1, fun _ => 1, 1⟩).1.stars = 0 + 1 ∧
    (button_step ⟨49, 0, 1, 10, SquirrelStatus.healthy, none, 0⟩ 0
        (ActionData.explore_loc "north") ⟨1, fun _ => 1, 1⟩).1.energy
      = update_energy ⟨49, 0, 1, 10, SquirrelStatus.healthy, none, 0⟩ 0 - 1 + 5 ∧
    (button_step ⟨49, 0, 1, 10, SquirrelStatus.healthy, none, 0⟩ 0
        (ActionData.explore_loc "north") ⟨1, fun _ => 1, 1⟩).1.acorns
      = 49 + 1 * (if (0 : ℤ) > 0 then 2 else 1) ∧
    (button_step ⟨49, 0, 1, 10, SquirrelStatus.healthy, none, 0⟩ 0
        (ActionData.explore_loc "north") ⟨1, fun _ => 1, 1⟩).2
      = ButtonResult.found "north" (1 * (if (0 : ℤ) > 0 then 2 else 1)) (some (1 + 1)) :=
  C3_single_level_up ⟨49, 0, 1, 10, SquirrelStatus.healthy, none, 0⟩ 0 "north"
    ⟨1, fun _ => 1, 1⟩ rfl
    (by show (1 : ℤ) ≤ min ((10 : ℤ) + truncQ (((0 : ℚ) - 0) / 3600 * 2)) 10
        norm_num [truncQ, min_def])
    (by show pick_threat (fun _ => (1 : ℚ)) threats 0 = none
        norm_num [pick_threat, threats])
    (by norm_num)

/-- C5 witness: with every draw equal to 0 all three hazard draws would
succeed, yet the outcome is the fox injury (first-match wins). -/
theorem C5_hazard_priority_witness :
    (pick_threat (⟨2, fun _ => 0, 1⟩ : Rand).draws threats 0 =
      if (⟨2, fun _ => 0, 1⟩ : Rand).draws 0 < 1/10 then some "fox"
      else if (⟨2, fun _ => 0, 1⟩ : Rand).draws 1 < 1/20 then some "eagle"
      else if (⟨2, fun _ => 0, 1⟩ : Rand).draws 2 < 1/20 then some "storm"
      else none) ∧
    ((⟨2, fun _ => 0, 1⟩ : Rand).draws 0 < 1/10 →
      (button_step ⟨0, 0, 1, 10, SquirrelStatus.healthy, none, 0⟩ 0
          (ActionData.explore_loc "north") ⟨2, fun _ => 0, 1⟩).2
        = ButtonResult.injured_by "fox") ∧
    (pick_threat (⟨2, fun _ => 0, 1⟩ : Rand).draws threats 0 = none →
      ∃ n lv, (button_step ⟨0, 0, 1, 10, SquirrelStatus.healthy, none, 0⟩ 0
          (ActionData.explore_loc "north") ⟨2, fun _ => 0, 1⟩).2
        = ButtonResult.found "north" n lv) :=
  C5_hazard_priority ⟨0, 0, 1, 10, SquirrelStatus.healthy, none, 0⟩ 0 "north"
    ⟨2, fun _ => 0, 1⟩ rfl
    (by show (1 : ℤ) ≤ min ((10 : ℤ) + truncQ (((0 : ℚ) - 0) / 3600 * 2)) 10
        norm_num [truncQ, min_def])

/-- C6 witness: a guaranteed-fox exploration from a fresh record leaves the
squirrel injured for two hours, the acorns at 0 and the energy at 9. -/
theorem C6_hazard_outcome_witness :
    (button_step ⟨0, 0, 1, 10, SquirrelStatus.healthy, none, 0⟩ 0
        (ActionData.explore_loc "north") ⟨2, fun _ => 0, 1⟩).1.squirrel_status
      = SquirrelStatus.injured ∧
    (button_step ⟨0, 0, 1, 10, SquirrelStatus.healthy, none, 0⟩ 0
        (ActionData.explore_loc "north") ⟨2, fun _ => 0, 1⟩).1.squirrel_recovery_time
      = some ((0 : ℚ) + 2 * 3600) ∧
    (button_step ⟨0, 0, 1, 10, SquirrelStatus.healthy, none, 0⟩ 0
        (ActionData.explore_loc "north") ⟨2, fun _ => 0, 1⟩).1.acorns = 0 ∧
    (button_step ⟨0, 0, 1, 10, SquirrelStatus.healthy, none, 0⟩ 0
        (ActionData.explore_loc "north") ⟨2, fun _ => 0, 1⟩).1.energy
      = update_energy ⟨0, 0, 1, 10, SquirrelStatus.healthy, none, 0⟩ 0 - 1 ∧
    (button_step ⟨0, 0, 1, 10, SquirrelStatus.healthy, none, 0⟩ 0
        (ActionData.explore_loc "north") ⟨2, fun _ => 0, 1⟩).2
      = ButtonResult.injured_by "fox" :=
  C6_hazard_outcome ⟨0, 0, 1, 10, SquirrelStatus.healthy, none, 0⟩ 0 "north"
    ⟨2, fun _ => 0, 1⟩ "fox" rfl
    (by show (1 : ℤ) ≤ min ((10 : ℤ) + truncQ (((0 : ℚ) - 0) / 3600 * 2)) 10
        norm_num [truncQ, min_def])
    (by show pick_threat (fun _ => (0 : ℚ)) threats 0 = some "fox"
        norm_num [pick_threat, threats])

/-- C7 witness: a player holding one star who rolls 3 acorns hazard-free
gains `3 * 2 = 6` acorns. -/
theorem C7_acorn_yield_witness :
    (button_step ⟨0, 1, 1, 10, SquirrelStatus.healthy, none, 0⟩ 0
        (ActionData.explore_loc "south") ⟨3, fun _ => 1, 1⟩).1.acorns
      = 0 + 3 * (if (1 : ℤ) > 0 then 2 else 1) :=
  C7_acorn_yield ⟨0, 1, 1, 10, SquirrelStatus.healthy, none, 0⟩ 0 "south"
    ⟨3, fun _ => 1, 1⟩ rfl
    (by show (1 : ℤ) ≤ min ((10 : ℤ) + truncQ (((0 : ℚ) - 0) / 3600 * 2)) 10
        norm_num [truncQ, min_def])
    (by show pick_threat (fun _ => (1 : ℚ)) threats 0 = none
        norm_num [pick_threat, threats])

/-- C8 witness: the recovery gate instantiated for an injured player whose
recovery lies two hours ahead of `now = 0`. -/
theorem C8_recovery_gate_witness :
    ((0 : ℚ) < 7200 →
      button_step ⟨0, 0, 1, 5, SquirrelStatus.injured, some 7200, 0⟩ 0
          ActionData.collect_star ⟨0, fun _ => 1, 1⟩
        = (regen ⟨0, 0, 1, 5, SquirrelStatus.injured, some 7200, 0⟩ 0,
           ButtonResult.injured_wait (truncQ (((7200 : ℚ) - 0) / 60))) ∧
      truncQ (((7200 : ℚ) - 0) / 60) = ⌊((7200 : ℚ) - 0) / 60⌋ ∧
      (regen ⟨0, 0, 1, 5, SquirrelStatus.injured, some 7200, 0⟩ 0).acorns = 0 ∧
      (regen ⟨0, 0, 1, 5, SquirrelStatus.injured, some 7200, 0⟩ 0).stars = 0 ∧
      (regen ⟨0, 0, 1, 5, SquirrelStatus.injured, some 7200, 0⟩ 0).level = 1 ∧
      (regen ⟨0, 0, 1, 5, SquirrelStatus.injured, some 7200, 0⟩ 0).squirrel_status
        = SquirrelStatus.injured ∧
      (regen ⟨0, 0, 1, 5, SquirrelStatus.injured, some 7200, 0⟩ 0).squirrel_recovery_time
        = some 7200) ∧
    ((7200 : ℚ) ≤ 0 →
      button_step ⟨0, 0, 1, 5, SquirrelStatus.injured, some 7200, 0⟩ 0
          ActionData.collect_star ⟨0, fun _ => 1, 1⟩
        = dispatch_action
            (heal (regen ⟨0, 0, 1, 5, SquirrelStatus.injured, some 7200, 0⟩ 0)) 0
            ActionData.collect_star ⟨0, fun _ => 1, 1⟩ ∧
      (heal (regen ⟨0, 0, 1, 5, SquirrelStatus.injured, some 7200, 0⟩ 0)).squirrel_status
        = SquirrelStatus.healthy ∧
      (heal (regen ⟨0, 0, 1, 5, SquirrelStatus.injured, some 7200, 0⟩ 0)).squirrel_recovery_time
        = none) :=
  C8_recovery_gate ⟨0, 0, 1, 5, SquirrelStatus.injured, some 7200, 0⟩ 0
    ActionData.collect_star ⟨0, fun _ => 1, 1⟩ 7200 rfl rfl

/-- C9 witness: at `t = 0` it is day (day 1), so collecting stars is
rejected with the truncated hours to the cycle restart and the stars
counter is untouched. -/
theorem C9_day_star_rejection_witness :
    button_step ⟨0, 0, 1, 10, SquirrelStatus.healthy, none, 0⟩ 0
        ActionData.collect_star ⟨0, fun _ => 1, 2⟩
      = (regen ⟨0, 0, 1, 10, SquirrelStatus.healthy, none, 0⟩ 0,
         ButtonResult.day_wait (truncQ (time_to_next 0 / 3600))) ∧
    (button_step ⟨0, 0, 1, 10, SquirrelStatus.healthy, none, 0⟩ 0
        ActionData.collect_star ⟨0, fun _ => 1, 2⟩).1.stars = 0 ∧
    truncQ (time_to_next 0 / 3600) = ⌊time_to_next 0 / 3600⌋ :=
  C9_day_star_rejection ⟨0, 0, 1, 10, SquirrelStatus.healthy, none, 0⟩ 0
    ⟨0, fun _ => 1, 2⟩ rfl
    (by norm_num [is_night, game_day, cycle_duration])

/-- C10 witness: at `t = 0` it is day, yet the star-selection callback still
adds exactly one star. -/
theorem C10_star_pick_unconditional_witness :
    is_night 0 = false ∧
    ((button_step ⟨0, 0, 1, 10, SquirrelStatus.healthy, none, 0⟩ 0
        (ActionData.star_pick 1) ⟨0, fun _ => 1, 1⟩).1.stars = 0 + 1 ∧
     (button_step ⟨0, 0, 1, 10, SquirrelStatus.healthy, none, 0⟩ 0
        (ActionData.star_pick 1) ⟨0, fun _ => 1, 1⟩).2 = ButtonResult.star_caught ∧
     (button_step ⟨0, 0, 1, 10, SquirrelStatus.healthy, none, 0⟩ 0
        (ActionData.star_pick 1) ⟨0, fun _ => 1, 1⟩).1.acorns = 0 ∧
     (button_step ⟨0, 0, 1, 10, SquirrelStatus.healthy, none, 0⟩ 0
        (ActionData.star_pick 1) ⟨0, fun _ => 1, 1⟩).1.level = 1) :=
  ⟨by norm_num [is_night, game_day, cycle_duration],
   C10_star_pick_unconditional ⟨0, 0, 1, 10, SquirrelStatus.healthy, none, 0⟩ 0
     ⟨0, fun _ => 1, 1⟩ 1 rfl⟩

end OakForest
